import Mathlib

/-!
Verification development for the PM High Council Quad-Swarm backend
(src/backend of the repository): a shallow embedding of the orchestration
core (supervisor, swarm branch nodes, synthesizer, streaming translation,
HTTP boundary checks and the persona mapping), with the external
collaborators (completion calls, embedding calls, the vector index and the
graph engine event source) represented as oracle parameters.

Conventions of the embedding:
- Python JSON values are the inductive type PyJson; a call to json.loads
  is represented by its outcome, an Option PyJson (none models a
  json.JSONDecodeError being raised).
- Python exceptions are the type PyError; fallible code returns
  Except PyError.
- Python dict.get with a default is dictGet over an association list;
  attribute access .get on a non-dict raises AttributeError, modelled by
  jsonGet returning an error on every non-object PyJson.
-/

/-- Python JSON values, as produced by json.loads. -/
inductive PyJson where
  | null : PyJson
  | bool : Bool → PyJson
  | num : Int → PyJson
  | str : String → PyJson
  | arr : List PyJson → PyJson
  | obj : List (String × PyJson) → PyJson

/-- Python exceptions that the embedded code can raise or propagate. -/
inductive PyError where
  | attributeError : PyError
  | externalError : String → PyError
deriving DecidableEq

/-- Message of an exception, as str(e) at the HTTP boundary. -/
def pyErrorMessage : PyError → String
  | PyError.attributeError => "AttributeError"
  | PyError.externalError m => m

/-- True on Except.ok, false on Except.error. -/
def exceptIsOk {α : Type} : Except PyError α → Bool
  | Except.ok _ => true
  | Except.error _ => false

/-- Python dict.get(key, default) on an association-list dict. -/
def dictGet (kvs : List (String × PyJson)) (k : String) (dflt : PyJson) : PyJson :=
  match kvs.find? (fun kv => kv.fst == k) with
  | some kv => kv.snd
  | none => dflt

/-- Python value.get(key, default): succeeds only when the value is a dict;
on any other value the attribute access raises AttributeError. -/
def jsonGet (j : PyJson) (k : String) (dflt : PyJson) : Except PyError PyJson :=
  match j with
  | PyJson.obj kvs => Except.ok (dictGet kvs k dflt)
  | _ => Except.error PyError.attributeError

/-! ## Swarm configuration (config.py)

SWARMS maps each swarm name to its configuration; the orchestration code
reads only the display_name field (system_prompt, focus and color are
consumed by the external completion client and the introspection
endpoints, which no claim touches). -/

/-- The four configured branch names, in the order of agent_graph.SWARM_NAMES. -/
def SWARM_NAMES : List String :=
  ["founder_swarm", "product_swarm", "growth_swarm", "engineering_swarm"]

/-- display_name of each configured swarm in config.SWARMS; the catch-all
branch is unreachable in the source because every lookup is guarded by
membership in SWARM_NAMES. -/
def displayNameOf : String → String
  | "founder_swarm" => "The Visionary"
  | "product_swarm" => "The Scaler"
  | "growth_swarm" => "The Scientist"
  | "engineering_swarm" => "The Architect"
  | _ => ""

/-! ## Branch agent results (agents/base_agent.py data) -/

/-- One entry of the sources list packaged by a swarm agent. -/
structure SourceEntry where
  text : String
  speaker : String
  episode : String
  timestamp : String
deriving DecidableEq

/-- The dict returned by a swarm agent invocation:
response text, cited sources, and the display identity. -/
structure SwarmResult where
  response : String
  sources : List SourceEntry
  agent : String
deriving DecidableEq

/-! ## Graph state (agent_graph.CouncilState) -/

/-- State threading through the Quad-Swarm graph. Optional fields are
absent until the owning node writes them. -/
structure CouncilState where
  problem : String
  founder_swarm_query : Option PyJson
  product_swarm_query : Option PyJson
  growth_swarm_query : Option PyJson
  engineering_swarm_query : Option PyJson
  founder_swarm_response : Option SwarmResult
  product_swarm_response : Option SwarmResult
  growth_swarm_response : Option SwarmResult
  engineering_swarm_response : Option SwarmResult
  synthesis : Option String

/-- Fresh state for one graph invocation: only problem is set. -/
def initState (problem : String) : CouncilState :=
  { problem := problem
    founder_swarm_query := none
    product_swarm_query := none
    growth_swarm_query := none
    engineering_swarm_query := none
    founder_swarm_response := none
    product_swarm_response := none
    growth_swarm_response := none
    engineering_swarm_response := none
    synthesis := none }

/-! ## Supervisor node (agent_graph.supervisor_node)

The completion call and json.loads are external; the node is parameterized
by the parse outcome of the completion output (none = JSONDecodeError). -/

/-- Fallback framing sentence for the founder swarm, interpolating the problem. -/
def founder_fallback (problem : String) : String :=
  "From a founder's perspective on vision and culture, how would you approach: " ++ problem

/-- Fallback framing sentence for the product swarm, interpolating the problem. -/
def product_fallback (problem : String) : String :=
  "What product strategy and discovery process would you recommend for: " ++ problem

/-- Fallback framing sentence for the growth swarm, interpolating the problem. -/
def growth_fallback (problem : String) : String :=
  "What growth systems, metrics and loops should we focus on for: " ++ problem

/-- Fallback framing sentence for the engineering swarm, interpolating the problem. -/
def engineering_fallback (problem : String) : String :=
  "What are the technical considerations and feasibility concerns for: " ++ problem

/-- The dict built in the except JSONDecodeError branch of supervisor_node. -/
def fallbackQueries (problem : String) : PyJson :=
  PyJson.obj [
    ("founder_swarm_query", PyJson.str (founder_fallback problem)),
    ("product_swarm_query", PyJson.str (product_fallback problem)),
    ("growth_swarm_query", PyJson.str (growth_fallback problem)),
    ("engineering_swarm_query", PyJson.str (engineering_fallback problem))]

/-- The dict returned by supervisor_node: exactly one sub-query per
configured branch, by construction of the record type. -/
structure SupvOut where
  founder_swarm_query : PyJson
  product_swarm_query : PyJson
  growth_swarm_query : PyJson
  engineering_swarm_query : PyJson

/-- agent_graph.supervisor_node. parsed is the outcome of
json.loads(response) on the completion output; none models
JSONDecodeError, upon which the deterministic fallback dict is used.
The four queries.get calls raise AttributeError when the parsed value is
not a dict; on a dict they default missing keys to the empty string. -/
def supervisor_node (problem : String) (parsed : Option PyJson) : Except PyError SupvOut :=
  let queries : PyJson :=
    match parsed with
    | some j => j
    | none => fallbackQueries problem
  match jsonGet queries "founder_swarm_query" (PyJson.str ""),
        jsonGet queries "product_swarm_query" (PyJson.str ""),
        jsonGet queries "growth_swarm_query" (PyJson.str ""),
        jsonGet queries "engineering_swarm_query" (PyJson.str "") with
  | Except.ok f, Except.ok p, Except.ok g, Except.ok e =>
      Except.ok { founder_swarm_query := f, product_swarm_query := p,
                  growth_swarm_query := g, engineering_swarm_query := e }
  | Except.error err, _, _, _ => Except.error err
  | _, Except.error err, _, _ => Except.error err
  | _, _, Except.error err, _ => Except.error err
  | _, _, _, Except.error err => Except.error err

/-! ## Swarm branch nodes (agent_graph.create_swarm_node)

Each node reads state.get(query_key, state problem) and calls its agent.
The agent closure (create_swarm_agent) performs an embedding call, an
index query and a completion call, any of which may raise; it is an
oracle of type PyJson to Except PyError SwarmResult here. -/

/-- state.get(query_key, state problem) for the founder branch. -/
def founderQueryOf (st : CouncilState) : PyJson :=
  match st.founder_swarm_query with
  | some q => q
  | none => PyJson.str st.problem

/-- state.get(query_key, state problem) for the product branch. -/
def productQueryOf (st : CouncilState) : PyJson :=
  match st.product_swarm_query with
  | some q => q
  | none => PyJson.str st.problem

/-- state.get(query_key, state problem) for the growth branch. -/
def growthQueryOf (st : CouncilState) : PyJson :=
  match st.growth_swarm_query with
  | some q => q
  | none => PyJson.str st.problem

/-- state.get(query_key, state problem) for the engineering branch. -/
def engineeringQueryOf (st : CouncilState) : PyJson :=
  match st.engineering_swarm_query with
  | some q => q
  | none => PyJson.str st.problem

/-! ## Synthesizer node (agent_graph.synthesizer_node)

The chain call is an external completion over the fixed SYNTHESIZER_PROMPT
template; the source passes it exactly the four per-branch texts (response
text when the branch result is present and truthy, else the fixed
placeholder). The oracle receives those four strings and may raise. -/

/-- The branch text the synthesizer passes for one branch: the response
field when the branch result is present, else the fixed placeholder. -/
def respOrPlaceholder (r : Option SwarmResult) (placeholder : String) : String :=
  match r with
  | some res => res.response
  | none => placeholder

/-- agent_graph.synthesizer_node: issues one completion call over the fixed
template, parameterized by the four branch texts (or placeholders), and
returns the raw completion text as the synthesis. -/
def synthesizer_node (st : CouncilState)
    (chainInvoke : String → String → String → String → Except PyError String) :
    Except PyError String :=
  chainInvoke
    (match st.founder_swarm_response with
     | some res => res.response
     | none => "No response from The Visionary")
    (match st.product_swarm_response with
     | some res => res.response
     | none => "No response from The Scaler")
    (match st.growth_swarm_response with
     | some res => res.response
     | none => "No response from The Scientist")
    (match st.engineering_swarm_response with
     | some res => res.response
     | none => "No response from The Architect")

/-! ## Blocking-mode graph execution (build_council_graph + invoke_council)

The graph engine runs supervisor, then the four branch nodes, then the
synthesizer. An exception raised by any node propagates out of the
invocation uncaught (the source installs no error handler and no retry
policy on any node), so the run aborts. The branch nodes run concurrently
in the source; because their writes are disjoint, the final state does not
depend on their order, and this model sequences them in SWARM_NAMES
order. -/

/-- Writes of the supervisor node applied to the state. -/
def applySupervisor (st : CouncilState) (q : SupvOut) : CouncilState :=
  { st with
    founder_swarm_query := some q.founder_swarm_query
    product_swarm_query := some q.product_swarm_query
    growth_swarm_query := some q.growth_swarm_query
    engineering_swarm_query := some q.engineering_swarm_query }

/-- One blocking graph invocation. agentF, agentP, agentG, agentE are the
four swarm agent closures (external retrieval plus completion); parsed is
the supervisor completion parse outcome; synth is the synthesizer
completion oracle. Any node error aborts the invocation. -/
def runCouncil (problem : String) (parsed : Option PyJson)
    (agentF agentP agentG agentE : PyJson → Except PyError SwarmResult)
    (synth : String → String → String → String → Except PyError String) :
    Except PyError CouncilState := do
  let q ← supervisor_node problem parsed
  let st := applySupervisor (initState problem) q
  let rF ← agentF (founderQueryOf st)
  let st := { st with founder_swarm_response := some rF }
  let rP ← agentP (productQueryOf st)
  let st := { st with product_swarm_response := some rP }
  let rG ← agentG (growthQueryOf st)
  let st := { st with growth_swarm_response := some rG }
  let rE ← agentE (engineeringQueryOf st)
  let st := { st with engineering_swarm_response := some rE }
  let syn ← synthesizer_node st synth
  return { st with synthesis := some syn }

/-! ## Streaming mode (agent_graph.stream_council + main event generator)

The graph engine event source (astream_events) is external: one execution
yields a sequence of raw events and either finishes the iteration normally
or raises mid-iteration. stream_council translates raw events into SSE
events and, after a normal iteration, yields a final done event; the
boundary event generator in main.py catches an exception raised during the
iteration and yields a single error event in lieu of further events. -/

/-- One raw event from the graph engine event stream: its event kind
string, the name of the runnable, and the output mapping carried under
data output (empty for start events). -/
structure RawEvent where
  kind : String
  name : String
  output : List (String × PyJson)

/-- SSE events emitted to the frontend. -/
inductive SseEvent where
  | swarm_start : String → String → SseEvent
  | swarm_complete : String → String → PyJson → SseEvent
  | synthesis_complete : PyJson → SseEvent
  | done : SseEvent
  | error : String → SseEvent

/-- True exactly on the done event. -/
def isDone : SseEvent → Bool
  | SseEvent.done => true
  | _ => false

/-- True exactly on swarm_start events. -/
def isSwarmStart : SseEvent → Bool
  | SseEvent.swarm_start _ _ => true
  | _ => false

/-- True exactly on synthesis_complete events. -/
def isSynthesisComplete : SseEvent → Bool
  | SseEvent.synthesis_complete _ => true
  | _ => false

/-- The event translation in the body of the stream_council loop: swarm
start and completion events and the synthesizer completion are forwarded,
every other raw event is dropped. -/
def translateEvent (e : RawEvent) : Option SseEvent :=
  if e.kind == "on_chain_start" && SWARM_NAMES.contains e.name then
    some (SseEvent.swarm_start e.name (displayNameOf e.name))
  else if e.kind == "on_chain_end" then
    if SWARM_NAMES.contains e.name then
      some (SseEvent.swarm_complete e.name (displayNameOf e.name)
        (dictGet e.output (e.name ++ "_response") (PyJson.obj [])))
    else if e.name == "synthesizer" then
      some (SseEvent.synthesis_complete (dictGet e.output "synthesis" (PyJson.str "")))
    else none
  else none

/-- One streaming execution as observed at the translation layer: the raw
events the engine yielded before the iteration either completed normally
or raised with the given message. -/
inductive StreamRun where
  | completed : List RawEvent → StreamRun
  | failed : List RawEvent → String → StreamRun

/-- The full SSE event sequence produced for one streaming execution by
stream_council wrapped in the boundary event generator: translated events,
then the final done event after a normal iteration, or a single error
event when the iteration raised. -/
def stream_council_events : StreamRun → List SseEvent
  | StreamRun.completed evs => evs.filterMap translateEvent ++ [SseEvent.done]
  | StreamRun.failed evs msg => evs.filterMap translateEvent ++ [SseEvent.error msg]

/-! ## HTTP boundary (main.py)

Both council endpoints validate the problem string before touching the
core. Python str.strip with no argument removes leading and trailing
whitespace; the ASCII whitespace characters are modelled (the requests at
issue are ASCII). An empty stripped problem is falsy, triggering the 400
rejection. -/

/-- Characters removed by Python str.strip (ASCII subset). -/
def pyIsSpace (c : Char) : Bool :=
  c == ' ' || c == '\t' || c == '\n' || c == '\x0d' || c == '\x0b' || c == '\x0c'

/-- Python str.strip with no argument. -/
def pyStrip (s : String) : String :=
  String.mk (((s.toList.dropWhile pyIsSpace).reverse.dropWhile pyIsSpace).reverse)

/-- Result of an endpoint call: a payload or an HTTP error status. -/
inductive ApiResult (α : Type) where
  | ok : α → ApiResult α
  | httpError : Nat → String → ApiResult α

/-- The aggregate result dict assembled by invoke_council. -/
structure CouncilResponse where
  problem : String
  founder_swarm : Option SwarmResult
  product_swarm : Option SwarmResult
  growth_swarm : Option SwarmResult
  engineering_swarm : Option SwarmResult
  synthesis : Option String

/-- agent_graph.invoke_council on top of one graph invocation. -/
def invoke_council (problem : String) (parsed : Option PyJson)
    (agentF agentP agentG agentE : PyJson → Except PyError SwarmResult)
    (synth : String → String → String → String → Except PyError String) :
    Except PyError CouncilResponse :=
  match runCouncil problem parsed agentF agentP agentG agentE synth with
  | Except.error e => Except.error e
  | Except.ok st =>
      Except.ok
        { problem := st.problem
          founder_swarm := st.founder_swarm_response
          product_swarm := st.product_swarm_response
          growth_swarm := st.growth_swarm_response
          engineering_swarm := st.engineering_swarm_response
          synthesis := st.synthesis }

/-- main.convene_council: rejects an empty or whitespace-only problem with
a 400 before invoking the core; otherwise invokes the core (represented by
the oracle core, standing for invoke_council with its ambient external
calls) and translates an uncaught exception into a 500. -/
def convene_council (problem : String)
    (core : String → Except PyError CouncilResponse) : ApiResult CouncilResponse :=
  if (pyStrip problem).isEmpty then
    ApiResult.httpError 400 "Problem statement cannot be empty"
  else
    match core problem with
    | Except.ok r => ApiResult.ok r
    | Except.error e => ApiResult.httpError 500 (pyErrorMessage e)

/-- main.stream_council_response: rejects an empty or whitespace-only
problem with a 400 before starting the stream; otherwise returns the SSE
event sequence of the execution (the run oracle stands for the underlying
graph event iteration). -/
def stream_council_response (problem : String) (run : StreamRun) :
    ApiResult (List SseEvent) :=
  if (pyStrip problem).isEmpty then
    ApiResult.httpError 400 "Problem statement cannot be empty"
  else
    ApiResult.ok (stream_council_events run)

/-! ## Branch agent (agents/base_agent.py)

The embedding call and the filtered index query are one external retrieval
oracle returning the collection.query result shape; the chain call is an
external completion oracle over the formatted context and the query. The
embedding assumes the index client returns one metadata list aligned with
the document list, which is the collection.query contract. -/

/-- Metadata mapping of one retrieved chunk; absent keys take the
corresponding meta.get default in the code. -/
structure PassageMeta where
  speaker_name : Option String
  timestamp : Option String
  episode_title : Option String
deriving DecidableEq

/-- The collection.query result shape: one document list and one metadata
list per query embedding. -/
structure QueryResults where
  documents : List (List String)
  metadatas : List (List PassageMeta)

/-- Python str.capitalize: first character uppercased, the rest lowercased. -/
def pyCapitalize (w : String) : String :=
  match w.toList with
  | [] => ""
  | c :: rest => String.mk (c.toUpper :: rest.map Char.toLower)

/-- Display form of a speaker identifier: split on dashes, capitalize each
word, join with spaces. -/
def displaySpeaker (speaker_name : String) : String :=
  String.intercalate " " ((speaker_name.splitOn "-").map pyCapitalize)

/-- The literal context substituted when no passages were retrieved. -/
def NO_CONTEXT : String := "No relevant context found from this collective."

/-- One formatted context block line: attribution, timestamp, passage text. -/
def mkContextPart (doc : String) (meta : PassageMeta) : String :=
  "[" ++ displaySpeaker (meta.speaker_name.getD "Unknown") ++ " - "
      ++ meta.timestamp.getD "N/A" ++ "] " ++ doc

/-- One sources entry: passage text truncated to 200 characters with an
ellipsis marker when longer, plus attribution and timestamp. -/
def mkSourceEntry (doc : String) (meta : PassageMeta) : SourceEntry :=
  { text := if doc.length > 200 then doc.take 200 ++ "..." else doc
    speaker := displaySpeaker (meta.speaker_name.getD "Unknown")
    episode := meta.episode_title.getD "Unknown"
    timestamp := meta.timestamp.getD "N/A" }

/-- The document-metadata pairs the loop runs over: the zip of the first
document list and the first metadata list, guarded by the truthiness check
on results documents and its first element. -/
def retrievedPairs (results : QueryResults) : List (String × PassageMeta) :=
  if !results.documents.isEmpty && !(results.documents.headD []).isEmpty then
    (results.documents.headD []).zip (results.metadatas.headD [])
  else []

/-- base_agent invoke: retrieves passages, formats the context block
(substituting the no-context marker when no passages were formatted),
issues the completion call, and packages response, sources and the display
identity. -/
def invoke (retrieve : String → QueryResults)
    (chainInvoke : String → String → String) (display_name : String)
    (query : String) : SwarmResult :=
  let results := retrieve query
  let pairs := retrievedPairs results
  let context_parts := pairs.map (fun dm => mkContextPart dm.fst dm.snd)
  let sources := pairs.map (fun dm => mkSourceEntry dm.fst dm.snd)
  let context :=
    if !context_parts.isEmpty then String.intercalate "\n\n" context_parts
    else NO_CONTEXT
  { response := chainInvoke context query
    sources := sources
    agent := display_name }

/-! ## Write sets of the graph nodes (C9 model)

Each node function returns a dict of state-key updates; these are the key
sets read off the return statements of supervisor_node, the create_swarm_node
closures and synthesizer_node, plus the initial input write of problem in
invoke_council. -/

/-- The nodes added to the graph in build_council_graph. -/
inductive GraphNode where
  | supervisor : GraphNode
  | founder_swarm : GraphNode
  | product_swarm : GraphNode
  | growth_swarm : GraphNode
  | engineering_swarm : GraphNode
  | synthesizer : GraphNode
deriving DecidableEq

/-- State keys of the dict each node returns. -/
def nodeWrites : GraphNode → List String
  | GraphNode.supervisor =>
      ["founder_swarm_query", "product_swarm_query",
       "growth_swarm_query", "engineering_swarm_query"]
  | GraphNode.founder_swarm => ["founder_swarm_response"]
  | GraphNode.product_swarm => ["product_swarm_response"]
  | GraphNode.growth_swarm => ["growth_swarm_response"]
  | GraphNode.engineering_swarm => ["engineering_swarm_response"]
  | GraphNode.synthesizer => ["synthesis"]

/-- The graph node list; each node is added once and, the topology being a
static fan-out and fan-in, executes once per invocation. -/
def graphNodes : List GraphNode :=
  [GraphNode.supervisor, GraphNode.founder_swarm, GraphNode.product_swarm,
   GraphNode.growth_swarm, GraphNode.engineering_swarm, GraphNode.synthesizer]

/-- All write sets of one execution: the initial input write of problem,
then the write set of each node. -/
def allWriteSets : List (List String) :=
  ["problem"] :: graphNodes.map nodeWrites

/-- The fields of CouncilState. -/
def stateFields : List String :=
  ["problem",
   "founder_swarm_query", "product_swarm_query",
   "growth_swarm_query", "engineering_swarm_query",
   "founder_swarm_response", "product_swarm_response",
   "growth_swarm_response", "engineering_swarm_response",
   "synthesis"]

/-- Boolean disjointness of two key lists. -/
def disjointKeys (w1 w2 : List String) : Bool :=
  w1.all (fun k => !(w2.contains k))

/-- Boolean pairwise disjointness of a list of key lists. -/
def pairwiseDisjointKeys : List (List String) → Bool
  | [] => true
  | w :: rest => rest.all (fun w2 => disjointKeys w w2) && pairwiseDisjointKeys rest

/-! ## Persona mapping (persona_mapping.py) -/

/-- PERSONA_MAP: each persona swarm with its speaker list, in source order. -/
def PERSONA_MAP : List (String × List String) :=
  [("founder_swarm",
    ["brian-chesky", "tobi-lutke", "marc-benioff", "dylan-field",
     "stewart-butterfield", "ben-horowitz", "nikita-bier", "kunal-shah"]),
   ("product_swarm",
    ["marty-cagan", "shreyas-doshi", "julie-zhuo", "gibson-biddle",
     "tomer-cohen", "noam-lovinsky", "lenny-rachitsky"]),
   ("growth_swarm",
    ["elena-verna", "brian-balfour", "casey-winters", "sean-ellis",
     "ayo-omojola", "sri-batchu", "patrick-campbell"]),
   ("engineering_swarm",
    ["will-larson", "camille-fournier", "david-singleton", "farhan-thawar",
     "dhanji-r-prasanna", "chip-huyen", "geoff-charles"])]

/-- The iteration of get_persona_for_speaker over the map entries: first
persona whose speaker list contains the speaker. -/
def lookupPersona : List (String × List String) → String → Option String
  | [], _ => none
  | (persona, speakers) :: rest, s =>
      if speakers.contains s then some persona else lookupPersona rest s

/-- persona_mapping.get_persona_for_speaker. -/
def get_persona_for_speaker (speaker_name : String) : Option String :=
  lookupPersona PERSONA_MAP speaker_name

/-- persona_mapping.get_all_speakers: the flat list of all mapped speakers. -/
def get_all_speakers : List String :=
  PERSONA_MAP.flatMap (fun pr => pr.snd)

/-- persona_mapping.get_speakers_for_persona: the speaker list of the
persona, or the empty list when the persona is not in the map. -/
def get_speakers_for_persona (persona : String) : List String :=
  match PERSONA_MAP.find? (fun pr => pr.fst == persona) with
  | some pr => pr.snd
  | none => []

/-! ## Concrete instances used by the theorems -/

/-- A branch agent whose external calls always succeed. -/
def okAgent : PyJson → Except PyError SwarmResult :=
  fun _ => Except.ok { response := "a reply", sources := [], agent := "The Scaler" }

/-- A branch agent whose retrieval call always raises. -/
def failingAgent : PyJson → Except PyError SwarmResult :=
  fun _ => Except.error (PyError.externalError "retrieval failed")

/-- A synthesizer completion call that always succeeds. -/
def okSynth : String → String → String → String → Except PyError String :=
  fun _ _ _ _ => Except.ok "a synthesis"

/-- A state in which all four branch results are absent. -/
def allAbsentState : CouncilState := initState "High churn during user onboarding"

/-- Raw events the loop turns into a swarm_start event. -/
def isRawSwarmStart (e : RawEvent) : Bool :=
  e.kind == "on_chain_start" && SWARM_NAMES.contains e.name

/-- A well-formed completed raw event sequence: the graph chain itself,
each branch starting then ending, and the synthesizer ending. -/
def wfEvents : List RawEvent :=
  [{ kind := "on_chain_start", name := "supervisor", output := [] },
   { kind := "on_chain_end", name := "supervisor", output := [] },
   { kind := "on_chain_start", name := "founder_swarm", output := [] },
   { kind := "on_chain_end", name := "founder_swarm", output := [] },
   { kind := "on_chain_start", name := "product_swarm", output := [] },
   { kind := "on_chain_end", name := "product_swarm", output := [] },
   { kind := "on_chain_start", name := "growth_swarm", output := [] },
   { kind := "on_chain_end", name := "growth_swarm", output := [] },
   { kind := "on_chain_start", name := "engineering_swarm", output := [] },
   { kind := "on_chain_end", name := "engineering_swarm", output := [] },
   { kind := "on_chain_end", name := "synthesizer", output := [("synthesis", PyJson.str "S")] }]

/-- A core invocation oracle that always succeeds with a fixed result. -/
def okCore : String → Except PyError CouncilResponse :=
  fun p => Except.ok { problem := p, founder_swarm := none, product_swarm := none,
                       growth_swarm := none, engineering_swarm := none,
                       synthesis := some "a synthesis" }

/-! # Theorems -/

/-! ## Helper lemmas -/

/-- A string with a non-empty prefix is non-empty. -/
theorem append_ne_empty_of_left (pre problem : String) (h : pre.length ≠ 0) :
    pre ++ problem ≠ "" := by
  intro hc
  have hl := congrArg String.length hc
  rw [String.length_append] at hl
  have h0 : ("" : String).length = 0 := rfl
  rw [h0] at hl
  omega

/-- Bind on Except applied to a success. -/
theorem except_bind_ok {α β : Type} (a : α) (f : α → Except PyError β) :
    (Except.ok a >>= f) = f a := rfl

/-- Bind on Except applied to an error. -/
theorem except_bind_error {α β : Type} (e : PyError) (f : α → Except PyError β) :
    ((Except.error e : Except PyError α) >>= f) = Except.error e := rfl

/-! ## C1: dispatcher fallback -/

/-- C1 counterexample: the claim asserts supervisor_node never raises for
every possible completion output. A completion output that parses as valid
JSON but not as an object, here the JSON array value written as two
brackets, reaches the queries.get calls, and attribute access .get on a
Python list raises AttributeError, which no handler catches: the node
raises instead of returning a mapping. -/
theorem C1_counterexample :
    supervisor_node "High churn during user onboarding" (some (PyJson.arr []))
      = Except.error PyError.attributeError := rfl

/-- C1 (amended): for every problem statement, when the completion output
cannot be parsed as JSON, supervisor_node does not raise and returns
exactly one sub-query per configured branch (the record has exactly the
four branch fields), each the deterministic branch-specific framing
sentence with the original problem interpolated, and each non-empty; when
the output parses to a JSON object, the node does not raise either
(missing keys default to the empty string). Outputs parsing to non-object
JSON raise AttributeError (see the counterexample). -/
theorem C1_dispatcher_fallback (problem : String) :
    supervisor_node problem none =
      Except.ok { founder_swarm_query := PyJson.str (founder_fallback problem)
                  product_swarm_query := PyJson.str (product_fallback problem)
                  growth_swarm_query := PyJson.str (growth_fallback problem)
                  engineering_swarm_query := PyJson.str (engineering_fallback problem) }
  ∧ (founder_fallback problem ≠ "" ∧ product_fallback problem ≠ ""
      ∧ growth_fallback problem ≠ "" ∧ engineering_fallback problem ≠ "")
  ∧ ∀ kvs : List (String × PyJson),
      exceptIsOk (supervisor_node problem (some (PyJson.obj kvs))) = true := by
  refine ⟨rfl, ⟨?_, ?_, ?_, ?_⟩, fun kvs => rfl⟩
  · exact append_ne_empty_of_left _ problem (by decide)
  · exact append_ne_empty_of_left _ problem (by decide)
  · exact append_ne_empty_of_left _ problem (by decide)
  · exact append_ne_empty_of_left _ problem (by decide)

/-! ## C2: branch failure handling -/




/-- C2 counterexample: with the founder branch raising from its retrieval
call and every other call succeeding, the graph invocation propagates the
branch error and aborts: no state is produced, no placeholder is
substituted and no synthesis happens, contradicting the claim that the run
proceeds to reduction with the failed branch treated as absent. -/
theorem C2_counterexample :
    runCouncil "High churn during user onboarding" none
        failingAgent okAgent okAgent okAgent okSynth
      = Except.error (PyError.externalError "retrieval failed") := rfl

/-- C2 (amended): for every execution in which the retrieval or completion
call of one branch raises, the error propagates uncaught out of the branch
node (the source installs no handler and no retry policy) and the whole
graph invocation aborts with an error; reduction is not reached, so the
reducer placeholder path is not exercised by branch errors. -/
theorem C2_branch_error_aborts (problem : String) (parsed : Option PyJson)
    (agentF agentP agentG agentE : PyJson → Except PyError SwarmResult)
    (synth : String → String → String → String → Except PyError String)
    (e : PyError)
    (h : (∀ q, agentF q = Except.error e) ∨ (∀ q, agentP q = Except.error e)
       ∨ (∀ q, agentG q = Except.error e) ∨ (∀ q, agentE q = Except.error e)) :
    exceptIsOk (runCouncil problem parsed agentF agentP agentG agentE synth) = false := by
  cases hs : supervisor_node problem parsed with
  | error e' => simp [runCouncil, hs, except_bind_error, exceptIsOk]
  | ok q =>
    rcases h with h | h | h | h
    · simp [runCouncil, hs, except_bind_ok, except_bind_error, exceptIsOk, h]
    · cases hF : agentF (founderQueryOf (applySupervisor (initState problem) q)) with
      | error e' =>
          simp [runCouncil, hs, hF, except_bind_ok, except_bind_error, exceptIsOk]
      | ok rF =>
          simp [runCouncil, hs, hF, except_bind_ok, except_bind_error, exceptIsOk, h]
    · cases hF : agentF (founderQueryOf (applySupervisor (initState problem) q)) with
      | error e' =>
          simp [runCouncil, hs, hF, except_bind_ok, except_bind_error, exceptIsOk]
      | ok rF =>
          simp only [runCouncil, hs, hF, except_bind_ok, except_bind_error]
          cases hP : agentP (productQueryOf
              { applySupervisor (initState problem) q with
                founder_swarm_response := some rF }) with
          | error e' => simp [hP, except_bind_error, exceptIsOk]
          | ok rP => simp [hP, except_bind_ok, except_bind_error, exceptIsOk, h]
    · cases hF : agentF (founderQueryOf (applySupervisor (initState problem) q)) with
      | error e' =>
          simp [runCouncil, hs, hF, except_bind_ok, except_bind_error, exceptIsOk]
      | ok rF =>
          simp only [runCouncil, hs, hF, except_bind_ok, except_bind_error]
          cases hP : agentP (productQueryOf
              { applySupervisor (initState problem) q with
                founder_swarm_response := some rF }) with
          | error e' => simp [hP, except_bind_error, exceptIsOk]
          | ok rP =>
            simp only [hP, except_bind_ok, except_bind_error]
            cases hG : agentG (growthQueryOf
                { applySupervisor (initState problem) q with
                  founder_swarm_response := some rF,
                  product_swarm_response := some rP }) with
            | error e' => simp [hG, except_bind_error, exceptIsOk]
            | ok rG => simp [hG, except_bind_ok, except_bind_error, exceptIsOk, h]

/-- C2 witness: a concrete execution satisfying the hypothesis of the
amended theorem, evaluated. -/
theorem C2_witness :
    exceptIsOk (runCouncil "a problem" none failingAgent okAgent okAgent okAgent okSynth)
      = false :=
  C2_branch_error_aborts "a problem" none failingAgent okAgent okAgent okAgent okSynth
    (PyError.externalError "retrieval failed") (Or.inl (fun _ => rfl))

/-! ## C5: reducer placeholder substitution -/


/-- C5: for every state of branch results (any subset absent) and every
completion behavior, the synthesizer issues the single completion call
with, for each branch, the response text when the branch result is present
and the fixed placeholder string when it is absent, and returns the raw
completion text; in particular with all four branch results absent the
synthesis is built from exactly the four placeholder strings and no error
occurs. -/
theorem C5_reducer_placeholders (st : CouncilState)
    (f : String → String → String → String → String) :
    synthesizer_node st (fun a b c d => Except.ok (f a b c d))
      = Except.ok
          (f (respOrPlaceholder st.founder_swarm_response "No response from The Visionary")
             (respOrPlaceholder st.product_swarm_response "No response from The Scaler")
             (respOrPlaceholder st.growth_swarm_response "No response from The Scientist")
             (respOrPlaceholder st.engineering_swarm_response "No response from The Architect"))
  ∧ synthesizer_node allAbsentState (fun a b c d => Except.ok (f a b c d))
      = Except.ok
          (f "No response from The Visionary" "No response from The Scaler"
             "No response from The Scientist" "No response from The Architect") := by
  constructor
  · unfold synthesizer_node respOrPlaceholder
    rfl
  · rfl

/-! ## C3: done event placement -/

/-- The translation layer never produces the done event: done is yielded
only by the statement after the loop. -/
theorem translateEvent_not_done (e : RawEvent) (x : SseEvent)
    (hx : translateEvent e = some x) : isDone x = false := by
  unfold translateEvent at hx
  split at hx
  · injection hx with h; rw [← h]; rfl
  · split at hx
    · split at hx
      · injection hx with h; rw [← h]; rfl
      · split at hx
        · injection hx with h; rw [← h]; rfl
        · cases hx
    · cases hx

/-- No done event among the translated raw events. -/
theorem countP_isDone_filterMap (evs : List RawEvent) :
    (evs.filterMap translateEvent).countP isDone = 0 := by
  induction evs with
  | nil => rfl
  | cons a as ih =>
    rw [List.filterMap_cons]
    cases ha : translateEvent a with
    | none => simpa using ih
    | some x =>
      simp only [List.countP_cons, translateEvent_not_done a x ha, if_false]
      simpa using ih

/-- C3 counterexample: the claim asserts the done event is emitted exactly
once in every execution of the streaming interface. In an execution whose
underlying graph iteration raises before yielding any event (for example
when the supervisor node raises), the boundary generator emits a single
error event in lieu of further events and the done event is never emitted. -/
theorem C3_counterexample :
    stream_council_events (StreamRun.failed [] "graph invocation failed")
        = [SseEvent.error "graph invocation failed"]
  ∧ (stream_council_events (StreamRun.failed [] "graph invocation failed")).countP isDone
        = 0 := ⟨rfl, rfl⟩

/-- C3 (amended): for every execution whose underlying graph event
iteration completes without raising, the done event is emitted exactly
once, it is the last event of the stream, and every other event, in
particular every synthesis_complete event, strictly precedes it; for every
execution whose iteration raises, the stream ends with a single error
event instead and no done event is emitted. -/
theorem C3_done_last (evs : List RawEvent) (msg : String) :
    (stream_council_events (StreamRun.completed evs)).countP isDone = 1
  ∧ (stream_council_events (StreamRun.completed evs)).getLast? = some SseEvent.done
  ∧ (stream_council_events (StreamRun.completed evs)).dropLast.countP isDone = 0
  ∧ (stream_council_events (StreamRun.completed evs)).dropLast.countP isSynthesisComplete
      = (stream_council_events (StreamRun.completed evs)).countP isSynthesisComplete
  ∧ (stream_council_events (StreamRun.failed evs msg)).countP isDone = 0
  ∧ (stream_council_events (StreamRun.failed evs msg)).getLast? = some (SseEvent.error msg) := by
  refine ⟨?_, ?_, ?_, ?_, ?_, ?_⟩
  · show ((evs.filterMap translateEvent) ++ [SseEvent.done]).countP isDone = 1
    rw [List.countP_append, countP_isDone_filterMap]
    rfl
  · exact List.getLast?_concat _
  · show ((evs.filterMap translateEvent) ++ [SseEvent.done]).dropLast.countP isDone = 0
    rw [List.dropLast_concat]
    exact countP_isDone_filterMap evs
  · show ((evs.filterMap translateEvent) ++ [SseEvent.done]).dropLast.countP isSynthesisComplete
        = ((evs.filterMap translateEvent) ++ [SseEvent.done]).countP isSynthesisComplete
    rw [List.dropLast_concat, List.countP_append]
    rfl
  · show ((evs.filterMap translateEvent) ++ [SseEvent.error msg]).countP isDone = 0
    rw [List.countP_append, countP_isDone_filterMap]
    rfl
  · exact List.getLast?_concat _

/-! ## C4: swarm_start counts and per-branch ordering -/


/-- A raw swarm start event translates to the swarm_start SSE event. -/
theorem translateEvent_start (e : RawEvent) (he : isRawSwarmStart e = true) :
    translateEvent e = some (SseEvent.swarm_start e.name (displayNameOf e.name)) := by
  unfold isRawSwarmStart at he
  unfold translateEvent
  rw [if_pos he]

/-- A raw event that is not a swarm start never translates to a
swarm_start SSE event. -/
theorem translateEvent_not_start (e : RawEvent) (he : isRawSwarmStart e = false)
    (x : SseEvent) (hx : translateEvent e = some x) : isSwarmStart x = false := by
  unfold isRawSwarmStart at he
  unfold translateEvent at hx
  have hne : ¬ ((e.kind == "on_chain_start" && SWARM_NAMES.contains e.name) = true) := by
    rw [he]; exact Bool.false_ne_true
  rw [if_neg hne] at hx
  split at hx
  · split at hx
    · injection hx with h; rw [← h]; rfl
    · split at hx
      · injection hx with h; rw [← h]; rfl
      · cases hx
  · cases hx

/-- The translation preserves the number of swarm start events. -/
theorem countP_isSwarmStart_filterMap (evs : List RawEvent) :
    (evs.filterMap translateEvent).countP isSwarmStart = evs.countP isRawSwarmStart := by
  induction evs with
  | nil => rfl
  | cons a as ih =>
    rw [List.filterMap_cons, List.countP_cons]
    by_cases ha : isRawSwarmStart a = true
    · rw [translateEvent_start a ha]
      rw [List.countP_cons]
      simp only [ha, if_true]
      have : isSwarmStart (SseEvent.swarm_start a.name (displayNameOf a.name)) = true := rfl
      rw [this, if_pos rfl, ih]
    · have ha' : isRawSwarmStart a = false := by
        cases hv : isRawSwarmStart a
        · rfl
        · exact absurd hv ha
      rw [ha']
      cases hx : translateEvent a with
      | none => simpa using ih
      | some x =>
        rw [List.countP_cons, translateEvent_not_start a ha' x hx]
        simpa using ih

/-- C4 counterexample: the claim asserts every execution of the streaming
interface emits one swarm_start per configured branch (four). In an
execution whose underlying iteration raises after the founder branch
started, only one swarm_start is emitted before the error event ends the
stream. -/
theorem C4_counterexample :
    (stream_council_events (StreamRun.failed
        [{ kind := "on_chain_start", name := "founder_swarm", output := [] }]
        "completion call failed")).countP isSwarmStart = 1
  ∧ SWARM_NAMES.length = 4 := ⟨rfl, rfl⟩

/-- Membership gives Boolean containment for string lists. -/
theorem contains_of_mem {l : List String} {s : String} (h : s ∈ l) :
    l.contains s = true :=
  List.elem_iff.mpr h

/-- A raw swarm chain-end event translates to the swarm_complete SSE event
carrying the response read off the node output. -/
theorem translateEvent_end (s : String) (hs : SWARM_NAMES.contains s = true)
    (out : List (String × PyJson)) :
    translateEvent { kind := "on_chain_end", name := s, output := out }
      = some (SseEvent.swarm_complete s (displayNameOf s)
          (dictGet out (s ++ "_response") (PyJson.obj []))) := by
  have hmem : s ∈ SWARM_NAMES := List.elem_iff.mp hs
  simp [translateEvent, hmem]

/-- C4 (amended): for every execution whose underlying graph event
iteration completes and contains, per the engine contract, exactly one
chain-start raw event per configured branch and, for each branch, its
chain-start strictly before its chain-end, the stream emits exactly as
many swarm_start events as configured branches (four), and for each branch
the swarm_start event strictly precedes its swarm_complete event in the
emitted stream. -/
theorem C4_swarm_start_precedes_complete (evs : List RawEvent)
    (hcount : evs.countP isRawSwarmStart = SWARM_NAMES.length)
    (horder : ∀ s ∈ SWARM_NAMES, ∃ o1 o2 : List (String × PyJson),
        List.Sublist
          [{ kind := "on_chain_start", name := s, output := o1 },
           { kind := "on_chain_end", name := s, output := o2 }] evs) :
    (stream_council_events (StreamRun.completed evs)).countP isSwarmStart
        = SWARM_NAMES.length
  ∧ ∀ s ∈ SWARM_NAMES, ∃ r : PyJson,
      List.Sublist
        [SseEvent.swarm_start s (displayNameOf s),
         SseEvent.swarm_complete s (displayNameOf s) r]
        (stream_council_events (StreamRun.completed evs)) := by
  constructor
  · show ((evs.filterMap translateEvent) ++ [SseEvent.done]).countP isSwarmStart = _
    rw [List.countP_append, countP_isSwarmStart_filterMap, hcount]
    rfl
  · intro s hs
    obtain ⟨o1, o2, hsub⟩ := horder s hs
    have hc : SWARM_NAMES.contains s = true := contains_of_mem hs
    have hstart := translateEvent_start { kind := "on_chain_start", name := s, output := o1 }
      (by simp [isRawSwarmStart, hs])
    have hend := translateEvent_end s hc o2
    have hmap := List.Sublist.filterMap translateEvent hsub
    have hlist : List.filterMap translateEvent
        [{ kind := "on_chain_start", name := s, output := o1 },
         { kind := "on_chain_end", name := s, output := o2 }]
        = [SseEvent.swarm_start s (displayNameOf s),
           SseEvent.swarm_complete s (displayNameOf s)
             (dictGet o2 (s ++ "_response") (PyJson.obj []))] := by
      rw [List.filterMap_cons, hstart, List.filterMap_cons, hend, List.filterMap_nil]
    rw [hlist] at hmap
    exact ⟨dictGet o2 (s ++ "_response") (PyJson.obj []),
           hmap.trans (List.sublist_append_left _ _)⟩


/-- C4 witness: a concrete well-formed completed execution satisfying the
hypotheses of the amended theorem, evaluated. -/
theorem C4_witness :
    (stream_council_events (StreamRun.completed wfEvents)).countP isSwarmStart
      = SWARM_NAMES.length := by
  refine (C4_swarm_start_precedes_complete wfEvents (by decide) ?_).1
  intro s hs
  simp only [SWARM_NAMES, List.mem_cons, List.not_mem_nil, or_false] at hs
  rcases hs with rfl | rfl | rfl | rfl
  · exact ⟨[], [], List.Sublist.cons _ (List.Sublist.cons _
      (List.Sublist.cons₂ _ (List.Sublist.cons₂ _ (List.nil_sublist _))))⟩
  · exact ⟨[], [], List.Sublist.cons _ (List.Sublist.cons _ (List.Sublist.cons _
      (List.Sublist.cons _ (List.Sublist.cons₂ _ (List.Sublist.cons₂ _
        (List.nil_sublist _))))))⟩
  · exact ⟨[], [], List.Sublist.cons _ (List.Sublist.cons _ (List.Sublist.cons _
      (List.Sublist.cons _ (List.Sublist.cons _ (List.Sublist.cons _
        (List.Sublist.cons₂ _ (List.Sublist.cons₂ _ (List.nil_sublist _))))))))⟩
  · exact ⟨[], [], List.Sublist.cons _ (List.Sublist.cons _ (List.Sublist.cons _
      (List.Sublist.cons _ (List.Sublist.cons _ (List.Sublist.cons _
        (List.Sublist.cons _ (List.Sublist.cons _ (List.Sublist.cons₂ _
          (List.Sublist.cons₂ _ (List.nil_sublist _))))))))))⟩

/-! ## C6: boundary validation of the problem string -/

/-- C6: for every request, when the problem strips to the empty string,
both council endpoints answer the 400 input error, and the answer is a
constant independent of the core (so no core invocation can have
influenced it); when the problem does not strip to empty, no 400 rejection
happens: the blocking endpoint answer is exactly the boundary translation
of the core invocation on the problem, and the streaming endpoint answer
is exactly the event stream of the execution. -/
theorem C6_boundary_validation (problem : String)
    (core : String → Except PyError CouncilResponse) (run : StreamRun) :
    ((pyStrip problem).isEmpty = true →
        convene_council problem core
            = ApiResult.httpError 400 "Problem statement cannot be empty"
      ∧ stream_council_response problem run
            = ApiResult.httpError 400 "Problem statement cannot be empty")
  ∧ ((pyStrip problem).isEmpty = false →
        convene_council problem core
            = (match core problem with
               | Except.ok r => ApiResult.ok r
               | Except.error e => ApiResult.httpError 500 (pyErrorMessage e))
      ∧ stream_council_response problem run
            = ApiResult.ok (stream_council_events run)) := by
  constructor
  · intro h
    constructor
    · unfold convene_council
      rw [if_pos h]
    · unfold stream_council_response
      rw [if_pos h]
  · intro h
    have hne : ¬ ((pyStrip problem).isEmpty = true) := by
      rw [h]; exact Bool.false_ne_true
    constructor
    · unfold convene_council
      rw [if_neg hne]
    · unfold stream_council_response
      rw [if_neg hne]


/-- C6 witness: the whitespace-only request is rejected with the 400 input
error and the non-whitespace request reaches the core, at concrete inputs. -/
theorem C6_witness :
    convene_council " \t\x0d\n " okCore
        = ApiResult.httpError 400 "Problem statement cannot be empty"
  ∧ convene_council "High churn during user onboarding" okCore
        = ApiResult.ok { problem := "High churn during user onboarding",
                         founder_swarm := none, product_swarm := none,
                         growth_swarm := none, engineering_swarm := none,
                         synthesis := some "a synthesis" } := by
  constructor
  · exact ((C6_boundary_validation " \t\x0d\n " okCore (StreamRun.completed [])).1
      (by decide)).1
  · have h := ((C6_boundary_validation "High churn during user onboarding" okCore
      (StreamRun.completed [])).2 (by decide)).1
    rw [h]
    rfl

/-! ## C7: empty retrieval still yields a branch result -/

/-- C7: for every branch execution in which the index query returns zero
passages (either an empty first document list, the collection.query shape,
or no document list at all), the context passed to the single completion
call is the literal no-relevant-context marker string, which is not empty;
the completion call still executes and the branch produces a (non-null)
result whose sources list is empty and whose response is the completion
text. The metadata lists and all other inputs are arbitrary. -/
theorem C7_empty_retrieval (metas : List (List PassageMeta))
    (chainInvoke : String → String → String) (display_name query : String) :
    invoke (fun _ => { documents := [[]], metadatas := metas }) chainInvoke
        display_name query
      = { response := chainInvoke NO_CONTEXT query, sources := [], agent := display_name }
  ∧ invoke (fun _ => { documents := [], metadatas := metas }) chainInvoke
        display_name query
      = { response := chainInvoke NO_CONTEXT query, sources := [], agent := display_name }
  ∧ NO_CONTEXT.isEmpty = false := ⟨rfl, rfl, rfl⟩

/-! ## C8: source preview truncation and attribution -/

/-- C8: for every branch invocation, the sources list has exactly one
entry per retrieved passage, built by the packaging function; and for
every passage text and metadata, the stored preview equals the full
passage text when it has at most 200 characters and the first 200
characters followed by the ellipsis marker when longer, and the entry
carries the attribution (display speaker, episode) and the timestamp read
off the metadata with their defaults. -/
theorem C8_source_previews (retrieve : String → QueryResults)
    (chainInvoke : String → String → String) (display_name query : String) :
    (invoke retrieve chainInvoke display_name query).sources
        = (retrievedPairs (retrieve query)).map (fun dm => mkSourceEntry dm.fst dm.snd)
  ∧ ∀ (doc : String) (meta : PassageMeta),
      (mkSourceEntry doc meta).text
          = (if doc.length ≤ 200 then doc else doc.take 200 ++ "...")
      ∧ (mkSourceEntry doc meta).speaker
          = displaySpeaker (meta.speaker_name.getD "Unknown")
      ∧ (mkSourceEntry doc meta).episode = meta.episode_title.getD "Unknown"
      ∧ (mkSourceEntry doc meta).timestamp = meta.timestamp.getD "N/A" := by
  refine ⟨rfl, fun doc meta => ⟨?_, rfl, rfl, rfl⟩⟩
  show (if doc.length > 200 then doc.take 200 ++ "..." else doc)
      = (if doc.length ≤ 200 then doc else doc.take 200 ++ "...")
  by_cases h : doc.length ≤ 200
  · rw [if_pos h, if_neg (by omega)]
  · rw [if_neg h, if_pos (by omega)]

/-! ## C9: disjoint write sets, write-once state -/

/-- Disjoint key lists give exclusion: a key of the first list is not in
the second. -/
theorem contains_eq_false_of_disjointKeys {w1 w2 : List String}
    (h : disjointKeys w1 w2 = true) {k : String} (hk : w1.contains k = true) :
    w2.contains k = false := by
  unfold disjointKeys at h
  rw [List.all_eq_true] at h
  have hm : k ∈ w1 := List.elem_iff.mp hk
  have := h k hm
  cases hv : w2.contains k
  · rfl
  · rw [hv] at this
    cases this

/-- Under pairwise disjointness, every key is contained in at most one of
the key lists. -/
theorem countP_contains_le_one (L : List (List String))
    (h : pairwiseDisjointKeys L = true) (k : String) :
    L.countP (fun w => w.contains k) ≤ 1 := by
  induction L with
  | nil => exact Nat.zero_le _
  | cons w rest ih =>
    unfold pairwiseDisjointKeys at h
    rw [Bool.and_eq_true] at h
    obtain ⟨hdisj, hrest⟩ := h
    rw [List.all_eq_true] at hdisj
    rw [List.countP_cons]
    split
    · rename_i hp
      have hk : w.contains k = true := hp
      have h0 : rest.countP (fun w2 => w2.contains k) = 0 := by
        rw [List.countP_eq_zero]
        intro w2 hw2
        have hne := contains_eq_false_of_disjointKeys (hdisj w2 hw2) hk
        intro hcontra
        have hc2 : w2.contains k = true := hcontra
        rw [hc2] at hne
        cases hne
      omega
    · have := ih hrest
      omega

/-- C9: the write sets of one graph execution (the initial input write of
problem, then the key set each node returns) are pairwise disjoint; they
cover each field of the execution state exactly once; hence every state
key, and in particular every field (the problem, each branch sub-query,
each branch result and the synthesis), is written at most once per
execution. -/
theorem C9_write_once :
    pairwiseDisjointKeys allWriteSets = true
  ∧ stateFields.all
      (fun f => allWriteSets.countP (fun w => w.contains f) == 1) = true
  ∧ ∀ k : String, allWriteSets.countP (fun w => w.contains k) ≤ 1 :=
  ⟨by decide, by decide, fun k => countP_contains_le_one allWriteSets (by decide) k⟩

/-! ## C10: persona mapping round-trip -/

/-- A speaker outside every speaker list of the map is not assigned a
persona. -/
theorem lookupPersona_total (m : List (String × List String)) (s : String) :
    s ∈ m.flatMap (fun pr => pr.snd) ∨ lookupPersona m s = none := by
  induction m with
  | nil => right; rfl
  | cons pr rest ih =>
    obtain ⟨p, sp⟩ := pr
    cases hc : sp.contains s
    · cases ih with
      | inl hl =>
          left
          rw [List.flatMap_cons]
          exact List.mem_append_right _ hl
      | inr hr =>
          right
          unfold lookupPersona
          rw [hc]
          exact hr
    · left
      rw [List.flatMap_cons]
      exact List.mem_append_left _ (List.elem_iff.mp hc)

/-- C10: for every persona of the map, every speaker of its list maps back
to exactly that persona through get_persona_for_speaker; the four speaker
lists are pairwise disjoint; and every speaker not listed under any
persona gets none. -/
theorem C10_persona_roundtrip :
    (PERSONA_MAP.map (fun pr => pr.fst)).all
        (fun p => (get_speakers_for_persona p).all
          (fun s => get_persona_for_speaker s == some p)) = true
  ∧ pairwiseDisjointKeys (PERSONA_MAP.map (fun pr => pr.snd)) = true
  ∧ ∀ s : String, s ∈ get_all_speakers ∨ get_persona_for_speaker s = none := by
  refine ⟨by decide, by decide, fun s => ?_⟩
  exact lookupPersona_total PERSONA_MAP s
